import Mathlib

/-!
Verification development for the V8 script-runtime bridge
(`code/components/citizen-scripting-v8/src/V8ScriptRuntime.cpp`).

The C++ source is shallowly embedded: dynamically-typed script values become
an inductive type, the marshaling routines become total Lean functions with
the same branch structure, and the stateful parts of the runtime (routine
slots, string arena, function-reference registry, environment scopes) become
explicit state-passing functions. Machine doubles are modelled as rationals
(every finite double is a rational, and all arithmetic the code performs on
them is exact); the one place where IEEE-754 NaN semantics matters — the
`x == NAN` comparisons in the vector-array branch of `PushArgument` — is
modelled by an explicit `FloatVal` type with a NaN element and an equality
test that is false on NaN, exactly as IEEE-754 prescribes.
-/

namespace FxV8

/-- Raw binary payloads (`char*` + length buffers) are byte lists. -/
abbrev Bytes := List Nat

/-- Script-side dynamic values as classified by `V8ScriptNativeContext::PushArgument`:
numbers, booleans, strings, null/undefined, `External` metafield pointers,
arrays, `ArrayBufferView`s, objects (with an optional `__data` field), and a
catch-all for any other value kind (carrying its string form). -/
inductive V8Value where
  | undefined
  | null
  | boolean (b : Bool)
  | num (q : ℚ)
  | str (s : String)
  | external (ptr : Nat)
  | array (elems : List V8Value)
  | bufferView (bytes : Bytes)
  | object (dataField : Option V8Value)
  | other (strForm : String)

/-- A C `float` as produced by the `getNumber` lambda in the array branch of
`PushArgument`: either a finite value or NaN (returned for absent or
non-numeric elements). -/
inductive FloatVal where
  | finite (q : ℚ)
  | nan
  deriving Repr, DecidableEq

/-- IEEE-754 `==` on floats: any comparison involving NaN is false. The
source's `x == NAN` tests are `ieeeEq x FloatVal.nan`. -/
def ieeeEq : FloatVal → FloatVal → Bool
  | FloatVal.finite a, FloatVal.finite b => a == b
  | _, _ => false

/-- One native argument slot as filled by the overloaded `Push` calls of
`ScriptNativeContext`. -/
inductive NativeArg where
  | i64 (n : Int)
  | f64 (q : ℚ)
  | f32 (x : FloatVal)
  | boolean (b : Bool)
  | strPair (s : String) (len : Nat)
  | bufPair (bytes : Bytes)
  | metaPtr (p : Nat)
  | i32 (n : Int)
  deriving Repr, DecidableEq

/-- Result of one `PushArgument` call: `ScriptError`/`ScriptErrorf` raise a
C++ exception carrying a message, otherwise zero or more native argument
slots were appended. -/
inductive MarshalResult where
  | err (msg : String)
  | ok (args : List NativeArg)
  deriving Repr, DecidableEq

/-- Truncation toward zero of a rational, the rounding `static_cast<int64_t>`
performs on an in-range double. -/
def ratTrunc (q : ℚ) : Int := Int.tdiv q.num (q.den : Int)

/-- `static_cast<int64_t>(double)` as the x86-64 `cvttsd2si` instruction
computes it: truncation toward zero for in-range values, `INT64_MIN` for
out-of-range values. -/
def i64cast (q : ℚ) : Int :=
  if -(2 ^ 63) ≤ ratTrunc q ∧ ratTrunc q < 2 ^ 63 then ratTrunc q else -(2 ^ 63)

/-- ECMAScript ToInt32: truncate, then reduce modulo 2^32 into
`[-2^31, 2^31)`. This is what `Value::Int32Value` yields on a number. -/
def int32ValueOf (q : ℚ) : Int :=
  if ratTrunc q % 2 ^ 32 < 2 ^ 31 then ratTrunc q % 2 ^ 32
  else ratTrunc q % 2 ^ 32 - 2 ^ 32

/-- `Value::IsInt32`: the value is a number holding an exact 32-bit signed
integer. -/
def IsInt32 : V8Value → Bool
  | V8Value.num q => q.den == 1 && decide (-(2 ^ 31) ≤ q.num) && decide (q.num < 2 ^ 31)
  | _ => false

/-- `Value::Int32Value` (only ever called by the embedded code on values that
satisfy `IsInt32`). -/
def Int32Value : V8Value → Int
  | V8Value.num q => int32ValueOf q
  | _ => 0

/-- The `getNumber` lambda of the array branch of `PushArgument`: reading
element `idx`; an absent element or a non-number element yields NaN,
a number yields its value as a float. -/
def getNumber (elems : List V8Value) (idx : Nat) : FloatVal :=
  match elems.get? idx with
  | none => FloatVal.nan
  | some (V8Value.num q) => FloatVal.finite q
  | some _ => FloatVal.nan

/-- The array ("placeholder vectors") branch of `PushArgument`, with the
source's exact control flow: a length outside 2..4 raises
`arrays should be vectors (wrong number of values)`; then elements are read
pairwise/singly and compared against NaN with IEEE `==` (`x == NAN`), raising
`invalid vector array value` when that comparison yields true. -/
def PushArgumentVector (elems : List V8Value) : MarshalResult :=
  if elems.length < 2 ∨ elems.length > 4 then
    MarshalResult.err "arrays should be vectors (wrong number of values)"
  else
    let x := getNumber elems 0
    let y := getNumber elems 1
    if ieeeEq x FloatVal.nan || ieeeEq y FloatVal.nan then
      MarshalResult.err "invalid vector array value"
    else
      let acc := [NativeArg.f32 x, NativeArg.f32 y]
      if 3 ≤ elems.length then
        let z := getNumber elems 2
        if ieeeEq z FloatVal.nan then
          MarshalResult.err "invalid vector array value"
        else
          let acc := acc ++ [NativeArg.f32 z]
          if 4 ≤ elems.length then
            let w := getNumber elems 3
            if ieeeEq w FloatVal.nan then
              MarshalResult.err "invalid vector array value"
            else MarshalResult.ok (acc ++ [NativeArg.f32 w])
          else MarshalResult.ok acc
      else MarshalResult.ok acc

/-- `V8ScriptNativeContext::PushArgument`: classify one script value and
append native argument slots (or raise a marshaling error). -/
def PushArgument (arg : V8Value) : MarshalResult :=
  match arg with
  | V8Value.num q =>
    let intValue := i64cast q
    if (intValue : ℚ) = q then MarshalResult.ok [NativeArg.i64 intValue]
    else MarshalResult.ok [NativeArg.f64 q]
  | V8Value.boolean b => MarshalResult.ok [NativeArg.boolean b]
  | V8Value.str s => MarshalResult.ok [NativeArg.strPair s s.utf8ByteSize]
  | V8Value.null => MarshalResult.ok [NativeArg.i64 0]
  | V8Value.undefined => MarshalResult.ok [NativeArg.i64 0]
  | V8Value.external p => MarshalResult.ok [NativeArg.metaPtr p]
  | V8Value.array elems => PushArgumentVector elems
  | V8Value.bufferView bytes => MarshalResult.ok [NativeArg.bufPair bytes]
  | V8Value.object dataField =>
    match dataField with
    | some (V8Value.num q) => MarshalResult.ok [NativeArg.i32 (int32ValueOf q)]
    | _ => MarshalResult.err "__data field does not contain a number"
  | V8Value.other strForm => MarshalResult.err ("invalid V8 value: " ++ strForm)

/-- ECMAScript array element store `arrayValue->Set(cxt, i, v)`: in-range
indices overwrite, the index one past the end appends, farther indices close
the gap with `undefined` holes. -/
def jsArraySet (xs : List V8Value) (i : Nat) (v : V8Value) : List V8Value :=
  if i < xs.length then xs.set i v
  else xs ++ List.replicate (i - xs.length) V8Value.undefined ++ [v]

/-- `returnValue.As<Array>()->Set(cxt, i, v)`: element store on an array
value (the embedded code only ever applies it to arrays). -/
def v8SetArrayElem : V8Value → Nat → V8Value → V8Value
  | V8Value.array xs, i, v => V8Value.array (jsArraySet xs i v)
  | nonArray, _, _ => nonArray

/-- One iteration of the `ProcessResults` callback in `V8_InvokeNative`:
the first result becomes the return value directly; on the second result the
first is moved into slot 0 of a fresh array; later results are appended. -/
def invokeNativeStep : V8Value × Nat → V8Value → V8Value × Nat
  | (returnValue, numResults), val =>
    if numResults = 0 then (val, numResults + 1)
    else
      let returnValue :=
        if numResults = 1 then V8Value.array (jsArraySet [] 0 returnValue) else returnValue
      (v8SetArrayElem returnValue numResults val, numResults + 1)

/-- The result-collection loop of `V8_InvokeNative`, fed the already
converted (`ProcessResult`) values in emission order; returns the
script-visible return value. -/
def V8_InvokeNative_results (results : List V8Value) : V8Value :=
  (results.foldl invokeNativeStep (V8Value.undefined, 0)).1

/-! ## Runtime instance, routine slots and the dispatch surface -/

/-- `std::function<void()>` — the tick routine. -/
abbrev TTickRoutine := Unit → Unit

/-- `TEventRoutine`: event name, payload bytes, event source. -/
abbrev TEventRoutine := String → Bytes → String → Unit

/-- `TCallRefRoutine`: ref index and serialized args to an optional result
buffer (`OMPtr<IScriptBuffer>`, null when no buffer was produced). -/
abbrev TCallRefRoutine := Int → Bytes → Option Bytes

/-- `TDuplicateRefRoutine`: ref index to new ref index. -/
abbrev TDuplicateRefRoutine := Int → Int

/-- `TDeleteRefRoutine`. -/
abbrev TDeleteRefRoutine := Int → Unit

/-- `TStackTraceRoutine`: two optional boundary hints to an optional
serialized frame-list blob. -/
abbrev TStackTraceRoutine := Option Int → Option Int → Option Bytes

/-- `TUnhandledPromiseRejectionRoutine` (the reject message is abstracted to
an integer token). -/
abbrev TUnhandledRejectionRoutine := Int → Unit

/-- The routine-slot state of a `V8ScriptRuntime` instance: seven
`std::function` members, each empty (`none`) until set. -/
structure V8ScriptRuntime where
  m_tickRoutine : Option TTickRoutine
  m_eventRoutine : Option TEventRoutine
  m_callRefRoutine : Option TCallRefRoutine
  m_duplicateRefRoutine : Option TDuplicateRefRoutine
  m_deleteRefRoutine : Option TDeleteRefRoutine
  m_stackTraceRoutine : Option TStackTraceRoutine
  m_unhandledPromiseRejectionRoutine : Option TUnhandledRejectionRoutine

/-- A freshly constructed runtime: all routine slots empty. -/
def emptyRuntime : V8ScriptRuntime :=
  ⟨none, none, none, none, none, none, none⟩

/-- `SetTickRoutine`: `if (!m_tickRoutine) m_tickRoutine = tickRoutine;`. -/
def V8ScriptRuntime.SetTickRoutine (rt : V8ScriptRuntime) (r : TTickRoutine) : V8ScriptRuntime :=
  match rt.m_tickRoutine with
  | none => { rt with m_tickRoutine := some r }
  | some _ => rt

/-- `SetEventRoutine`: first registration wins. -/
def V8ScriptRuntime.SetEventRoutine (rt : V8ScriptRuntime) (r : TEventRoutine) : V8ScriptRuntime :=
  match rt.m_eventRoutine with
  | none => { rt with m_eventRoutine := some r }
  | some _ => rt

/-- `SetCallRefRoutine`: first registration wins. -/
def V8ScriptRuntime.SetCallRefRoutine (rt : V8ScriptRuntime) (r : TCallRefRoutine) : V8ScriptRuntime :=
  match rt.m_callRefRoutine with
  | none => { rt with m_callRefRoutine := some r }
  | some _ => rt

/-- `SetDuplicateRefRoutine`: first registration wins. -/
def V8ScriptRuntime.SetDuplicateRefRoutine (rt : V8ScriptRuntime) (r : TDuplicateRefRoutine) : V8ScriptRuntime :=
  match rt.m_duplicateRefRoutine with
  | none => { rt with m_duplicateRefRoutine := some r }
  | some _ => rt

/-- `SetDeleteRefRoutine`: first registration wins. -/
def V8ScriptRuntime.SetDeleteRefRoutine (rt : V8ScriptRuntime) (r : TDeleteRefRoutine) : V8ScriptRuntime :=
  match rt.m_deleteRefRoutine with
  | none => { rt with m_deleteRefRoutine := some r }
  | some _ => rt

/-- `SetStackTraceRoutine`: first registration wins. -/
def V8ScriptRuntime.SetStackTraceRoutine (rt : V8ScriptRuntime) (r : TStackTraceRoutine) : V8ScriptRuntime :=
  match rt.m_stackTraceRoutine with
  | none => { rt with m_stackTraceRoutine := some r }
  | some _ => rt

/-- `SetUnhandledPromiseRejectionRoutine`: first registration wins. -/
def V8ScriptRuntime.SetUnhandledPromiseRejectionRoutine (rt : V8ScriptRuntime) (r : TUnhandledRejectionRoutine) : V8ScriptRuntime :=
  match rt.m_unhandledPromiseRejectionRoutine with
  | none => { rt with m_unhandledPromiseRejectionRoutine := some r }
  | some _ => rt

/-- Outcome of calling a guest JS function through `Function::Call` under a
`TryCatch`: either an exception was caught, or a value was produced. -/
inductive JSOutcome where
  | exception
  | value (v : V8Value)

/-- The closure `V8_SetDuplicateRefFunction` installs as the duplicate-ref
routine: call the guest function; on a caught exception return `-1`; if the
produced value `IsInt32`, return its `Int32Value`; otherwise return `-1`. -/
def mkDuplicateRefRoutine (jsFn : Int → JSOutcome) : TDuplicateRefRoutine :=
  fun refId =>
    match jsFn refId with
    | JSOutcome.exception => -1
    | JSOutcome.value v => if IsInt32 v then Int32Value v else -1

/-- `V8_SetDuplicateRefFunction`: wrap the guest callable and register it
(first registration wins). -/
def V8_SetDuplicateRefFunction (rt : V8ScriptRuntime) (jsFn : Int → JSOutcome) : V8ScriptRuntime :=
  rt.SetDuplicateRefRoutine (mkDuplicateRefRoutine jsFn)

/-- `FX_S_OK`, the success result code every dispatch operation returns. -/
def FX_S_OK : Int := 0

/-- Observable side effects of one dispatch operation: how many Environment
Scopes (`V8PushEnvironment`) were entered and whether the routine was
invoked. -/
structure DispatchEffects where
  scopesEntered : Nat
  routineInvoked : Bool
  deriving Repr, DecidableEq

/-- No scope entered, nothing invoked. -/
def noEnter : DispatchEffects := ⟨0, false⟩

/-- One scope entered, routine invoked. -/
def enterOnce : DispatchEffects := ⟨1, true⟩

/-- `V8ScriptRuntime::Tick`: invoke the tick routine inside an Environment
Scope when set; always returns `FX_S_OK`. -/
def V8ScriptRuntime.Tick (rt : V8ScriptRuntime) : Int × DispatchEffects :=
  match rt.m_tickRoutine with
  | some _ => (FX_S_OK, enterOnce)
  | none => (FX_S_OK, noEnter)

/-- `V8ScriptRuntime::TriggerEvent`: invoke the event routine inside an
Environment Scope when set; always returns `FX_S_OK`. -/
def V8ScriptRuntime.TriggerEvent (rt : V8ScriptRuntime) (eventName : String) (payload : Bytes) (eventSource : String) : Int × DispatchEffects :=
  match rt.m_eventRoutine with
  | some r =>
    let _ := r eventName payload eventSource
    (FX_S_OK, enterOnce)
  | none => (FX_S_OK, noEnter)

/-- `V8ScriptRuntime::CallRef`: `*retval = nullptr;` then, when the call-ref
routine is set, enter an Environment Scope and store its result; always
returns `FX_S_OK`. Components: result code, `*retval`, effects. -/
def V8ScriptRuntime.CallRef (rt : V8ScriptRuntime) (refIdx : Int) (argsSerialized : Bytes) : Int × Option Bytes × DispatchEffects :=
  match rt.m_callRefRoutine with
  | some r => (FX_S_OK, r refIdx argsSerialized, enterOnce)
  | none => (FX_S_OK, none, noEnter)

/-- `V8ScriptRuntime::DuplicateRef`: `*outRefIdx = -1;` then, when the
duplicate-ref routine is set, enter an Environment Scope and store its
result; always returns `FX_S_OK`. Components: result code, `*outRefIdx`,
effects. -/
def V8ScriptRuntime.DuplicateRef (rt : V8ScriptRuntime) (refIdx : Int) : Int × Int × DispatchEffects :=
  match rt.m_duplicateRefRoutine with
  | some r => (FX_S_OK, r refIdx, enterOnce)
  | none => (FX_S_OK, -1, noEnter)

/-- `V8ScriptRuntime::RemoveRef`: invoke the delete-ref routine inside an
Environment Scope when set; always returns `FX_S_OK`. -/
def V8ScriptRuntime.RemoveRef (rt : V8ScriptRuntime) (refIdx : Int) : Int × DispatchEffects :=
  match rt.m_deleteRefRoutine with
  | some r =>
    let _ := r refIdx
    (FX_S_OK, enterOnce)
  | none => (FX_S_OK, noEnter)

/-- `V8ScriptRuntime::WalkStack`: when the stack-trace routine is set, enter
an Environment Scope, obtain the blob and decode it into frames handed to
the visitor (`decoder` stands for the msgpack unpack/repack loop); always
returns `FX_S_OK`. Components: result code, frames submitted, effects. -/
def V8ScriptRuntime.WalkStack (decoder : Bytes → List Bytes) (rt : V8ScriptRuntime) (bStart bEnd : Option Int) : Int × List Bytes × DispatchEffects :=
  match rt.m_stackTraceRoutine with
  | some r =>
    match r bStart bEnd with
    | some blob => (FX_S_OK, decoder blob, enterOnce)
    | none => (FX_S_OK, [], enterOnce)
  | none => (FX_S_OK, [], noEnter)

/-! ## String arena -/

/-- The string arena of a runtime: the 50-slot table
`std::unique_ptr<String::Utf8Value> m_stringValues[50]` (a slot is `none`
until first written) and the cursor `int m_curStringValue`. -/
structure StringArena where
  m_stringValues : Nat → Option String
  m_curStringValue : Nat

/-- `V8ScriptRuntime::AssignStringValue`: store the new owned string into the
slot at the current cursor, advance the cursor modulo `_countof(m_stringValues)`
(= 50), and hand back the string data. -/
def AssignStringValue (st : StringArena) (s : String) : StringArena × String :=
  let st' : StringArena :=
    { m_stringValues := Function.update st.m_stringValues st.m_curStringValue (some s),
      m_curStringValue := (st.m_curStringValue + 1) % 50 }
  (st', s)

/-- Repeated `AssignStringValue`, as a sequence of string arguments within
one native call would perform it. -/
def assignMany (st : StringArena) (ss : List String) : StringArena :=
  ss.foldl (fun a s => (AssignStringValue a s).1) st

/-- A fresh arena: empty slots, cursor 0 (constructor sets
`m_curStringValue = 0`). -/
def arena0 : StringArena :=
  ⟨fun _ => none, 0⟩

/-! ## Function-reference registry -/

/-- Result of `IScriptHost::InvokeFunctionReference`: failure (with the
host's last-error text) or success with an optional result buffer
(`retvalBuffer` may be left null). -/
inductive HostResult where
  | failure (lastError : String)
  | success (buf : Option Bytes)

/-- A `RefAndPersistent` registry entry: the owned identifier bytes and
whether the persisted handle to the guest-visible wrapper is still set. -/
structure RefAndPersistent where
  ref : Bytes
  handleSet : Bool

/-- `V8_MakeFunctionReference`: build a registry entry owning the identifier
bytes, with the persisted handle set (weakly) to the new wrapper. -/
def V8_MakeFunctionReference (idBytes : Bytes) : RefAndPersistent :=
  { ref := idBytes, handleSet := true }

/-- Outcome of invoking the guest-visible trampoline: a thrown script error
(with message) or a returned byte buffer. -/
inductive InvokeOutcome where
  | thrown (msg : String)
  | returned (buf : Bytes)

/-- `V8_InvokeFunctionReference`: copy the payload bytes, forward
`(identifier, payload)` to the host's call-ref interface; on failure throw a
script error carrying the host's last-error text; otherwise return the
host's bytes (an empty buffer when `retvalBuffer` is null). -/
def V8_InvokeFunctionReference (host : Bytes → Bytes → HostResult) (refData : RefAndPersistent) (payload : Bytes) : InvokeOutcome :=
  match host refData.ref payload with
  | HostResult.failure err => InvokeOutcome.thrown err
  | HostResult.success none => InvokeOutcome.returned []
  | HostResult.success (some bytes) => InvokeOutcome.returned bytes

/-- Process-wide reference-registry state: per-entry persisted-handle flags,
per-entry freed flags, and the lock-free deferred-release queue
`g_cleanUpFuncRefs` (entries named by numeric ids). -/
structure RefSystem where
  handles : Nat → Bool
  freed : Nat → Bool
  queue : List Nat

/-- `FnRefWeakCallback`, the GC finalization callback: reset the persisted
handle and push the entry onto `g_cleanUpFuncRefs`; nothing is freed. -/
def FnRefWeakCallback (st : RefSystem) (e : Nat) : RefSystem :=
  { handles := Function.update st.handles e false,
    freed := st.freed,
    queue := st.queue ++ [e] }

/-- The `while (g_cleanUpFuncRefs.try_pop(deleteRef)) delete deleteRef;` loop
of the per-tick drain: free every queued entry. -/
def drainLoop : List Nat → (Nat → Bool) → (Nat → Bool)
  | [], freed => freed
  | e :: rest, freed => drainLoop rest (Function.update freed e true)

/-- The per-tick `OnTick` drain of `g_cleanUpFuncRefs`: pop and free every
queued entry, leaving the queue empty. -/
def drainFuncRefs (st : RefSystem) : RefSystem :=
  { handles := st.handles,
    freed := drainLoop st.queue st.freed,
    queue := [] }

/-- A concrete reference-registry state for instantiations: three live
entries, nothing freed, empty queue. -/
def refSys0 : RefSystem :=
  ⟨fun _ => true, fun _ => false, []⟩

/-! ## Microtask checkpoints at Environment Scope exits -/

/-- Events touching the microtask/GC machinery: `V8PushEnvironment`
construction and destruction, and the isolate's GC prologue/epilogue
callbacks (which increment/decrement `g_isV8InGc`). -/
inductive ScopeEvent where
  | scopeEnter
  | scopeExit
  | gcPrologue
  | gcEpilogue
  deriving Repr, DecidableEq

/-- `V8ScriptRuntime::RunMicrotasks`, reported as whether
`PerformCheckpoint` executes: it does iff the runtime has a task queue and
`g_isV8InGc == 0`. -/
def RunMicrotasksPerforms (hasTaskQueue : Bool) (gIsV8InGc : Int) : Bool :=
  hasTaskQueue && (gIsV8InGc == 0)

/-- Count of microtask checkpoints performed along a trace of scope and GC
events: every `V8PushEnvironment` destructor runs `RunMicrotasks` through
its `FxMicrotaskScope` member (nested or not), gated only by the task queue
and the `g_isV8InGc` counter. -/
def scopeTraceCheckpoints (hasTaskQueue : Bool) : Int → List ScopeEvent → Nat
  | _, [] => 0
  | g, ScopeEvent.scopeEnter :: r => scopeTraceCheckpoints hasTaskQueue g r
  | g, ScopeEvent.scopeExit :: r =>
    (if RunMicrotasksPerforms hasTaskQueue g then 1 else 0) + scopeTraceCheckpoints hasTaskQueue g r
  | g, ScopeEvent.gcPrologue :: r => scopeTraceCheckpoints hasTaskQueue (g + 1) r
  | g, ScopeEvent.gcEpilogue :: r => scopeTraceCheckpoints hasTaskQueue (g - 1) r

/-- Count of scope exits in a trace. -/
def countScopeExits : List ScopeEvent → Nat
  | [] => 0
  | ScopeEvent.scopeExit :: r => 1 + countScopeExits r
  | _ :: r => countScopeExits r

/-- Count of outermost scope exits (exits that return the nesting depth to
zero), tracking the depth from the given start. -/
def countOutermostExits : Nat → List ScopeEvent → Nat
  | _, [] => 0
  | d, ScopeEvent.scopeEnter :: r => countOutermostExits (d + 1) r
  | d, ScopeEvent.scopeExit :: r => (if d = 1 then 1 else 0) + countOutermostExits (d - 1) r
  | d, _ :: r => countOutermostExits d r

/-- A nested entry/exit trace: an outer dispatch operation that recursively
dispatches again (the `FakeScope` variant of `V8PushEnvironment` taken when
the V8 locker is already held), with no GC activity. -/
def demoTrace : List ScopeEvent :=
  [ScopeEvent.scopeEnter, ScopeEvent.scopeEnter, ScopeEvent.scopeExit, ScopeEvent.scopeExit]

/-! ## Helper lemmas -/

/-- A rational with denominator 1 is the cast of its numerator. -/
theorem ratIntCast_of_den_one {q : ℚ} (h : q.den = 1) : ((q.num : ℤ) : ℚ) = q := by
  have h2 := Rat.num_div_den q
  rw [h] at h2
  simpa using h2

/-- Truncation of an integer-valued rational is its numerator. -/
theorem ratTrunc_intCast (n : ℤ) : ratTrunc ((n : ℤ) : ℚ) = n := by
  unfold ratTrunc
  rw [Rat.num_intCast, Rat.den_intCast]
  simp [Int.tdiv_one]

/-- The `intValue == value` test of the number branch of `PushArgument`
holds exactly when the value is an integer with an exact 64-bit signed
representation. -/
theorem i64cast_eq_self_iff (q : ℚ) :
    ((i64cast q : ℤ) : ℚ) = q ↔ q.den = 1 ∧ -(2 ^ 63) ≤ q.num ∧ q.num < 2 ^ 63 := by
  constructor
  · intro h
    have hden : q.den = 1 := by rw [← h]; exact Rat.den_intCast _
    have hnum : q.num = i64cast q := by
      have := congrArg Rat.num h
      rw [Rat.num_intCast] at this
      exact this.symm
    have hb : -(2 ^ 63) ≤ i64cast q ∧ i64cast q < 2 ^ 63 := by
      unfold i64cast
      split
      · next hcond => exact hcond
      · exact ⟨le_refl _, by norm_num⟩
    exact ⟨hden, by rw [hnum]; exact hb.1, by rw [hnum]; exact hb.2⟩
  · rintro ⟨hden, hlo, hhi⟩
    have ht : ratTrunc q = q.num := by
      unfold ratTrunc
      rw [hden]
      simp [Int.tdiv_one]
    have hcast : i64cast q = q.num := by
      unfold i64cast
      rw [ht, if_pos ⟨hlo, hhi⟩]
    rw [hcast]
    exact ratIntCast_of_den_one hden

/-- ToInt32 is the identity on exact 32-bit integers. -/
theorem int32ValueOf_intCast (n : ℤ) (h1 : -(2 ^ 31) ≤ n) (h2 : n < 2 ^ 31) :
    int32ValueOf ((n : ℤ) : ℚ) = n := by
  unfold int32ValueOf
  rw [ratTrunc_intCast]
  have e1 : (2 : ℤ) ^ 32 = 4294967296 := by norm_num
  have e2 : (2 : ℤ) ^ 31 = 2147483648 := by norm_num
  rw [e1, e2]
  rw [e2] at h1 h2
  split <;> omega

/-- Invariant of the `ProcessResults` fold: once the accumulator holds an
array of at least two collected results paired with its length, further
results are appended in order. -/
theorem invokeNativeStep_foldl (rs : List V8Value) (acc : List V8Value) (h2 : 2 ≤ acc.length) :
    List.foldl invokeNativeStep (V8Value.array acc, acc.length) rs
      = (V8Value.array (acc ++ rs), acc.length + rs.length) := by
  induction rs generalizing acc with
  | nil => simp
  | cons a rest ih =>
    have hstep : invokeNativeStep (V8Value.array acc, acc.length) a
        = (V8Value.array (acc ++ [a]), acc.length + 1) := by
      simp only [invokeNativeStep]
      rw [if_neg (show ¬acc.length = 0 by omega), if_neg (show ¬acc.length = 1 by omega)]
      simp [v8SetArrayElem, jsArraySet]
    rw [List.foldl_cons, hstep]
    have hlen : (acc ++ [a]).length = acc.length + 1 := by simp
    rw [show (V8Value.array (acc ++ [a]), acc.length + 1)
          = (V8Value.array (acc ++ [a]), (acc ++ [a]).length) by rw [hlen]]
    rw [ih (acc ++ [a]) (by simp; omega)]
    simp
    omega

/-- Drain loop effect: an entry is freed afterwards iff it was freed before
or is in the drained queue. -/
theorem drainLoop_spec (queue : List Nat) (f : Nat → Bool) (j : Nat) :
    drainLoop queue f j = (f j || queue.contains j) := by
  induction queue generalizing f with
  | nil => simp [drainLoop]
  | cons e rest ih =>
    rw [drainLoop, ih]
    by_cases hj : j = e
    · subst hj
      simp [Function.update_same]
    · simp [Function.update_noteq hj, List.contains_cons, hj]

/-- Cursor position after a run of `AssignStringValue` calls. -/
theorem assignMany_cursor (ss : List String) (st : StringArena) (hc : st.m_curStringValue < 50) :
    (assignMany st ss).m_curStringValue = (st.m_curStringValue + ss.length) % 50 := by
  induction ss generalizing st with
  | nil =>
    simp [assignMany, Nat.mod_eq_of_lt hc]
  | cons a rest ih =>
    have hstep : ((AssignStringValue st a).1).m_curStringValue = (st.m_curStringValue + 1) % 50 := rfl
    have hlt : ((AssignStringValue st a).1).m_curStringValue < 50 := by
      rw [hstep]; exact Nat.mod_lt _ (by norm_num)
    show (assignMany ((AssignStringValue st a).1) rest).m_curStringValue = _
    rw [ih _ hlt, hstep]
    simp only [List.length_cons]
    omega

/-! ## Claim theorems -/

/-- C1: a reference created by `V8_MakeFunctionReference` with identifier
bytes `id` owns exactly those bytes; invoking the trampoline with payload
`P` forwards exactly `(id, P)` to the host's call-ref interface and returns
exactly the bytes the host returned (an empty buffer when the host returned
none); if the host interface reports failure, the trampoline raises a
script-level error whose message is the host's last-error text. -/
theorem claim_C1_ref_trampoline (host : Bytes → Bytes → HostResult) (idBytes payload : Bytes) :
    ((V8_MakeFunctionReference idBytes).ref = idBytes) ∧
    (∀ msg, host idBytes payload = HostResult.failure msg →
      V8_InvokeFunctionReference host (V8_MakeFunctionReference idBytes) payload
        = InvokeOutcome.thrown msg) ∧
    (∀ bytes, host idBytes payload = HostResult.success (some bytes) →
      V8_InvokeFunctionReference host (V8_MakeFunctionReference idBytes) payload
        = InvokeOutcome.returned bytes) ∧
    (host idBytes payload = HostResult.success none →
      V8_InvokeFunctionReference host (V8_MakeFunctionReference idBytes) payload
        = InvokeOutcome.returned []) := by
  refine ⟨rfl, ?_, ?_, ?_⟩ <;> intros <;>
    simp [V8_InvokeFunctionReference, V8_MakeFunctionReference, *]

/-- C1 witness: a concrete host returning bytes `[4, 5]`. -/
theorem claim_C1_witness :
    V8_InvokeFunctionReference (fun _ _ => HostResult.success (some [4, 5]))
        (V8_MakeFunctionReference [1, 2]) [9]
      = InvokeOutcome.returned [4, 5] :=
  (claim_C1_ref_trampoline (fun _ _ => HostResult.success (some [4, 5])) [1, 2] [9]).2.2.1
    [4, 5] rfl

/-- C2: the GC finalization callback `FnRefWeakCallback` never frees
anything synchronously — its only effects are resetting the persisted handle
and pushing the entry onto the deferred-release queue; no run of callbacks
frees an entry, and entries are freed only by the per-tick drain, which pops
every queued entry. -/
theorem claim_C2_weak_callback_defers (st : RefSystem) (e : Nat) :
    ((FnRefWeakCallback st e).freed = st.freed) ∧
    ((FnRefWeakCallback st e).handles e = false) ∧
    ((FnRefWeakCallback st e).queue = st.queue ++ [e]) ∧
    (∀ j, j ≠ e → (FnRefWeakCallback st e).handles j = st.handles j) ∧
    (∀ es : List Nat, (es.foldl FnRefWeakCallback st).freed = st.freed) ∧
    ((drainFuncRefs (FnRefWeakCallback st e)).queue = []) ∧
    ((drainFuncRefs (FnRefWeakCallback st e)).freed e = true) ∧
    (∀ j, (drainFuncRefs (FnRefWeakCallback st e)).freed j
        = (st.freed j || (st.queue ++ [e]).contains j)) := by
  refine ⟨rfl, Function.update_same _ _ _, rfl, fun j hj => Function.update_noteq hj _ _,
    ?_, rfl, ?_, fun j => drainLoop_spec _ _ _⟩
  · intro es
    induction es generalizing st with
    | nil => rfl
    | cons a rest ih => exact ih (FnRefWeakCallback st a)
  · show drainLoop (st.queue ++ [e]) st.freed e = true
    rw [drainLoop_spec]
    simp

/-- C2 witness: concrete entry 3 is queued, untouched entry 5 keeps its
handle, and entry 3 is freed only after the drain. -/
theorem claim_C2_witness :
    (FnRefWeakCallback refSys0 3).freed = refSys0.freed ∧
    (FnRefWeakCallback refSys0 3).handles 5 = refSys0.handles 5 ∧
    (drainFuncRefs (FnRefWeakCallback refSys0 3)).freed 3 = true :=
  ⟨(claim_C2_weak_callback_defers refSys0 3).1,
   (claim_C2_weak_callback_defers refSys0 3).2.2.2.1 5 (by decide),
   (claim_C2_weak_callback_defers refSys0 3).2.2.2.2.2.2.1⟩

/-- C3 (code evaluation at the failing input): the claim says a non-numeric
array element makes marshaling fail with `invalid vector array value`, but
the source guards that error with `x == NAN`, which IEEE-754 makes false for
every `x`; so `PushArgument` on the length-2 array `[1, "a"]` succeeds and
silently pushes the floats `1.0` and NaN instead of erroring. -/
theorem claim_C3_nonnumeric_not_rejected :
    PushArgument (V8Value.array [V8Value.num 1, V8Value.str "a"]) =
      MarshalResult.ok [NativeArg.f32 (FloatVal.finite 1), NativeArg.f32 FloatVal.nan] := by
  rfl

/-- C4: a numeric script value with an exact 64-bit signed integer
representation is pushed as a 64-bit signed integer preserving its value;
any other numeric value is pushed as a 64-bit float equal to it. -/
theorem claim_C4_push_number (q : ℚ) :
    (q.den = 1 ∧ -(2 ^ 63) ≤ q.num ∧ q.num < 2 ^ 63 →
      PushArgument (V8Value.num q) = MarshalResult.ok [NativeArg.i64 q.num]) ∧
    (¬(q.den = 1 ∧ -(2 ^ 63) ≤ q.num ∧ q.num < 2 ^ 63) →
      PushArgument (V8Value.num q) = MarshalResult.ok [NativeArg.f64 q]) := by
  constructor
  · intro h
    have hcast : ((i64cast q : ℤ) : ℚ) = q := (i64cast_eq_self_iff q).2 h
    have hval : i64cast q = q.num := by
      have := congrArg Rat.num hcast
      rw [Rat.num_intCast] at this
      exact this
    simp only [PushArgument]
    rw [if_pos hcast, hval]
  · intro h
    have hcast : ¬((i64cast q : ℤ) : ℚ) = q := fun hc => h ((i64cast_eq_self_iff q).1 hc)
    simp only [PushArgument]
    rw [if_neg hcast]

/-- C4 witness: the integer-valued number 7 is pushed as the 64-bit signed
integer 7. -/
theorem claim_C4_witness :
    PushArgument (V8Value.num 7) = MarshalResult.ok [NativeArg.i64 7] := by
  have h := (claim_C4_push_number 7).1 (by norm_num)
  simpa using h

/-- C5: zero native results yield `undefined`; exactly one result is
returned directly, not wrapped in an array; two or more results are
collected in emission order into an array. -/
theorem claim_C5_multi_result :
    V8_InvokeNative_results [] = V8Value.undefined ∧
    (∀ a : V8Value, V8_InvokeNative_results [a] = a) ∧
    (∀ rs : List V8Value, 2 ≤ rs.length → V8_InvokeNative_results rs = V8Value.array rs) := by
  refine ⟨rfl, fun a => rfl, fun rs h2 => ?_⟩
  cases rs with
  | nil => simp at h2
  | cons a t =>
    cases t with
    | nil => simp at h2
    | cons b rest =>
      show (List.foldl invokeNativeStep (V8Value.undefined, 0) (a :: b :: rest)).1 = _
      have hinit : List.foldl invokeNativeStep (V8Value.undefined, 0) (a :: b :: rest)
          = List.foldl invokeNativeStep (V8Value.array [a, b], 2) rest := rfl
      have h3 := invokeNativeStep_foldl rest [a, b] (by simp)
      simp at h3
      rw [hinit, h3]

/-- C5 witness: two results become a two-element array in order. -/
theorem claim_C5_witness :
    V8_InvokeNative_results [V8Value.boolean true, V8Value.boolean false]
      = V8Value.array [V8Value.boolean true, V8Value.boolean false] :=
  claim_C5_multi_result.2.2 [V8Value.boolean true, V8Value.boolean false] (by decide)

/-- C6: with the duplicate-ref routine registered, `DuplicateRef` yields −1
when the guest function raises a script exception or returns a value that is
not an `Int32`, and yields the guest function's own returned integer `n`
otherwise. -/
theorem claim_C6_duplicate_ref (jsFn : Int → JSOutcome) (rt : V8ScriptRuntime) (refIdx : Int)
    (hset : rt.m_duplicateRefRoutine = some (mkDuplicateRefRoutine jsFn)) :
    (jsFn refIdx = JSOutcome.exception → (rt.DuplicateRef refIdx).2.1 = -1) ∧
    (∀ v, jsFn refIdx = JSOutcome.value v → IsInt32 v = false →
      (rt.DuplicateRef refIdx).2.1 = -1) ∧
    (∀ n : Int, -(2 ^ 31) ≤ n → n < 2 ^ 31 →
      jsFn refIdx = JSOutcome.value (V8Value.num ((n : ℤ) : ℚ)) →
      (rt.DuplicateRef refIdx).2.1 = n) := by
  have hdr : (rt.DuplicateRef refIdx).2.1 = mkDuplicateRefRoutine jsFn refIdx := by
    simp [V8ScriptRuntime.DuplicateRef, hset]
  refine ⟨?_, ?_, ?_⟩
  · intro hexc
    rw [hdr]
    simp [mkDuplicateRefRoutine, hexc]
  · intro v hv hni
    rw [hdr]
    simp [mkDuplicateRefRoutine, hv, hni]
  · intro n h1 h2 hv
    rw [hdr]
    have hint : IsInt32 (V8Value.num ((n : ℤ) : ℚ)) = true := by
      simp [IsInt32, Rat.num_intCast, Rat.den_intCast, h1, h2]
      constructor <;> omega
    simp [mkDuplicateRefRoutine, hv, hint, Int32Value, int32ValueOf_intCast n h1 h2]

/-- C6 witness: a guest function returning the integer 7 makes
`DuplicateRef` return 7. -/
theorem claim_C6_witness :
    ((emptyRuntime.SetDuplicateRefRoutine
        (mkDuplicateRefRoutine (fun _ => JSOutcome.value (V8Value.num ((7 : ℤ) : ℚ))))).DuplicateRef
      5).2.1 = 7 :=
  (claim_C6_duplicate_ref (fun _ => JSOutcome.value (V8Value.num ((7 : ℤ) : ℚ))) _ 5
    rfl).2.2 7 (by decide) (by decide) rfl

/-- C7: for each of the seven routine slots, a second registration is a
silent no-op (the slot keeps the first routine), the first registration on
an empty slot installs exactly that routine, and dispatch after a double
registration invokes the first-registered callable. -/
theorem claim_C7_first_registration_wins :
    (∀ (rt : V8ScriptRuntime) r r2,
      ((rt.SetTickRoutine r).SetTickRoutine r2).m_tickRoutine
        = (rt.SetTickRoutine r).m_tickRoutine) ∧
    (∀ (rt : V8ScriptRuntime) r, rt.m_tickRoutine = none →
      (rt.SetTickRoutine r).m_tickRoutine = some r) ∧
    (∀ (rt : V8ScriptRuntime) r r2,
      ((rt.SetEventRoutine r).SetEventRoutine r2).m_eventRoutine
        = (rt.SetEventRoutine r).m_eventRoutine) ∧
    (∀ (rt : V8ScriptRuntime) r, rt.m_eventRoutine = none →
      (rt.SetEventRoutine r).m_eventRoutine = some r) ∧
    (∀ (rt : V8ScriptRuntime) r r2,
      ((rt.SetCallRefRoutine r).SetCallRefRoutine r2).m_callRefRoutine
        = (rt.SetCallRefRoutine r).m_callRefRoutine) ∧
    (∀ (rt : V8ScriptRuntime) r, rt.m_callRefRoutine = none →
      (rt.SetCallRefRoutine r).m_callRefRoutine = some r) ∧
    (∀ (rt : V8ScriptRuntime) r r2,
      ((rt.SetDuplicateRefRoutine r).SetDuplicateRefRoutine r2).m_duplicateRefRoutine
        = (rt.SetDuplicateRefRoutine r).m_duplicateRefRoutine) ∧
    (∀ (rt : V8ScriptRuntime) r, rt.m_duplicateRefRoutine = none →
      (rt.SetDuplicateRefRoutine r).m_duplicateRefRoutine = some r) ∧
    (∀ (rt : V8ScriptRuntime) r r2,
      ((rt.SetDeleteRefRoutine r).SetDeleteRefRoutine r2).m_deleteRefRoutine
        = (rt.SetDeleteRefRoutine r).m_deleteRefRoutine) ∧
    (∀ (rt : V8ScriptRuntime) r, rt.m_deleteRefRoutine = none →
      (rt.SetDeleteRefRoutine r).m_deleteRefRoutine = some r) ∧
    (∀ (rt : V8ScriptRuntime) r r2,
      ((rt.SetStackTraceRoutine r).SetStackTraceRoutine r2).m_stackTraceRoutine
        = (rt.SetStackTraceRoutine r).m_stackTraceRoutine) ∧
    (∀ (rt : V8ScriptRuntime) r, rt.m_stackTraceRoutine = none →
      (rt.SetStackTraceRoutine r).m_stackTraceRoutine = some r) ∧
    (∀ (rt : V8ScriptRuntime) r r2,
      ((rt.SetUnhandledPromiseRejectionRoutine r).SetUnhandledPromiseRejectionRoutine
          r2).m_unhandledPromiseRejectionRoutine
        = (rt.SetUnhandledPromiseRejectionRoutine r).m_unhandledPromiseRejectionRoutine) ∧
    (∀ (rt : V8ScriptRuntime) r, rt.m_unhandledPromiseRejectionRoutine = none →
      (rt.SetUnhandledPromiseRejectionRoutine r).m_unhandledPromiseRejectionRoutine = some r) ∧
    (∀ (rt : V8ScriptRuntime) r r2 i, rt.m_duplicateRefRoutine = none →
      (((rt.SetDuplicateRefRoutine r).SetDuplicateRefRoutine r2).DuplicateRef i).2.1 = r i) := by
  refine ⟨?_, ?_, ?_, ?_, ?_, ?_, ?_, ?_, ?_, ?_, ?_, ?_, ?_, ?_, ?_⟩
  · intro rt r r2
    cases hopt : rt.m_tickRoutine <;> simp [V8ScriptRuntime.SetTickRoutine, hopt]
  · intro rt r h
    simp [V8ScriptRuntime.SetTickRoutine, h]
  · intro rt r r2
    cases hopt : rt.m_eventRoutine <;> simp [V8ScriptRuntime.SetEventRoutine, hopt]
  · intro rt r h
    simp [V8ScriptRuntime.SetEventRoutine, h]
  · intro rt r r2
    cases hopt : rt.m_callRefRoutine <;> simp [V8ScriptRuntime.SetCallRefRoutine, hopt]
  · intro rt r h
    simp [V8ScriptRuntime.SetCallRefRoutine, h]
  · intro rt r r2
    cases hopt : rt.m_duplicateRefRoutine <;> simp [V8ScriptRuntime.SetDuplicateRefRoutine, hopt]
  · intro rt r h
    simp [V8ScriptRuntime.SetDuplicateRefRoutine, h]
  · intro rt r r2
    cases hopt : rt.m_deleteRefRoutine <;> simp [V8ScriptRuntime.SetDeleteRefRoutine, hopt]
  · intro rt r h
    simp [V8ScriptRuntime.SetDeleteRefRoutine, h]
  · intro rt r r2
    cases hopt : rt.m_stackTraceRoutine <;> simp [V8ScriptRuntime.SetStackTraceRoutine, hopt]
  · intro rt r h
    simp [V8ScriptRuntime.SetStackTraceRoutine, h]
  · intro rt r r2
    cases hopt : rt.m_unhandledPromiseRejectionRoutine <;>
      simp [V8ScriptRuntime.SetUnhandledPromiseRejectionRoutine, hopt]
  · intro rt r h
    simp [V8ScriptRuntime.SetUnhandledPromiseRejectionRoutine, h]
  · intro rt r r2 i h
    simp [V8ScriptRuntime.SetDuplicateRefRoutine, V8ScriptRuntime.DuplicateRef, h]

/-- C7 witness: after registering a duplicate-ref routine returning 7 and
then one returning 9, dispatch invokes the first and yields 7. -/
theorem claim_C7_witness :
    (((emptyRuntime.SetDuplicateRefRoutine (fun _ => 7)).SetDuplicateRefRoutine
        (fun _ => 9)).DuplicateRef 0).2.1 = 7 :=
  claim_C7_first_registration_wins.2.2.2.2.2.2.2.2.2.2.2.2.2.2 emptyRuntime (fun _ => 7)
    (fun _ => 9) 0 rfl

/-- C8 counterexample: in a nested scope trace (no GC, task queue present)
the exits of both the outer and the nested `V8PushEnvironment` perform a
checkpoint — 2 checkpoints for 1 outermost exit — refuting "exactly once per
outermost Environment Scope exit, nested exits do not re-run it". -/
theorem claim_C8_counterexample :
    scopeTraceCheckpoints true 0 demoTrace = 2 ∧
    countOutermostExits 0 demoTrace = 1 ∧
    scopeTraceCheckpoints true 0 demoTrace ≠ countOutermostExits 0 demoTrace := by
  refine ⟨rfl, rfl, by decide⟩

/-- C8 (amended): a microtask checkpoint is attempted at every Environment
Scope exit, nested exits included; on a trace without GC activity it is
performed at every exit exactly when the runtime has a task queue and the
engine is not inside a GC pass, and it is skipped at every exit otherwise
(in particular whenever the engine is inside a GC pass). -/
theorem claim_C8_amended (q : Bool) (g : Int) (t : List ScopeEvent) :
    (∀ e ∈ t, e = ScopeEvent.scopeEnter ∨ e = ScopeEvent.scopeExit) →
    scopeTraceCheckpoints q g t = if q && (g == 0) then countScopeExits t else 0 := by
  induction t with
  | nil =>
    intro _
    cases hq : (q && (g == 0)) <;> simp [scopeTraceCheckpoints, countScopeExits, hq]
  | cons a rest ih =>
    intro hnogc
    have hrest : ∀ e ∈ rest, e = ScopeEvent.scopeEnter ∨ e = ScopeEvent.scopeExit :=
      fun e he => hnogc e (List.mem_cons_of_mem a he)
    cases a with
    | scopeEnter =>
      simpa [scopeTraceCheckpoints, countScopeExits] using ih hrest
    | scopeExit =>
      rw [scopeTraceCheckpoints, ih hrest, countScopeExits]
      unfold RunMicrotasksPerforms
      cases hq : (q && (g == 0)) <;> simp [hq]
    | gcPrologue =>
      have := hnogc ScopeEvent.gcPrologue (List.mem_cons_self _ _)
      simp at this
    | gcEpilogue =>
      have := hnogc ScopeEvent.gcEpilogue (List.mem_cons_self _ _)
      simp at this

/-- C8 amended witness: the nested trace performs 2 checkpoints when not in
GC, and 0 when the GC counter is nonzero. -/
theorem claim_C8_amended_witness :
    scopeTraceCheckpoints true 0 demoTrace = 2 ∧
    scopeTraceCheckpoints true 3 demoTrace = 0 :=
  ⟨(claim_C8_amended true 0 demoTrace (by decide)).trans (by decide),
   (claim_C8_amended true 3 demoTrace (by decide)).trans (by decide)⟩

/-- C9: `AssignStringValue` stores the new string into the slot at the
current cursor, advances the cursor modulo 50, keeps the cursor in 0..49,
hands back the stored string, and the 51st string acquired since a rotation
point overwrites the slot written by the 1st. -/
theorem claim_C9_string_arena (st : StringArena) (s : String) (hc : st.m_curStringValue < 50) :
    ((AssignStringValue st s).1.m_stringValues st.m_curStringValue = some s) ∧
    ((AssignStringValue st s).1.m_curStringValue = (st.m_curStringValue + 1) % 50) ∧
    ((AssignStringValue st s).1.m_curStringValue < 50) ∧
    ((AssignStringValue st s).2 = s) ∧
    (∀ ss : List String, ∀ sLast : String, ss.length = 50 →
      (assignMany st (ss ++ [sLast])).m_stringValues st.m_curStringValue = some sLast) := by
  refine ⟨Function.update_same _ _ _, rfl, Nat.mod_lt _ (by norm_num), rfl, ?_⟩
  intro ss sLast hlen
  have hsplit : assignMany st (ss ++ [sLast]) = (AssignStringValue (assignMany st ss) sLast).1 := by
    simp [assignMany, List.foldl_append]
  have hcur : (assignMany st ss).m_curStringValue = st.m_curStringValue := by
    rw [assignMany_cursor ss st hc, hlen]
    omega
  rw [hsplit]
  show Function.update (assignMany st ss).m_stringValues (assignMany st ss).m_curStringValue
      (some sLast) st.m_curStringValue = some sLast
  rw [hcur]
  exact Function.update_same _ _ _

/-- C9 witness: from a fresh arena, "a" lands in slot 0, the cursor moves to
1, and after 50 further strings the 51st ("c") overwrites slot 0. -/
theorem claim_C9_witness :
    (AssignStringValue arena0 "a").1.m_stringValues 0 = some "a" ∧
    (AssignStringValue arena0 "a").1.m_curStringValue = 1 ∧
    (assignMany arena0 (List.replicate 50 "b" ++ ["c"])).m_stringValues 0 = some "c" :=
  ⟨(claim_C9_string_arena arena0 "a" (by decide)).1,
   ((claim_C9_string_arena arena0 "a" (by decide)).2.1).trans (by decide),
   (claim_C9_string_arena arena0 "a" (by decide)).2.2.2.2 (List.replicate 50 "b") "c"
     (by simp)⟩

/-- C10: every dispatch operation with its routine slot unset returns
`FX_S_OK` without entering an Environment Scope or invoking anything, with
fixed out-parameter defaults (`*retval = nullptr` for `CallRef`,
`*outRefIdx = -1` for `DuplicateRef`); and the observable result of
`DuplicateRef` with an unset routine equals the one with a routine whose
guest function threw, so the two cases are indistinguishable. -/
theorem claim_C10_unset_routine_defaults (rt : V8ScriptRuntime) (refIdx : Int) (args : Bytes)
    (decoder : Bytes → List Bytes) (eventName eventSource : String) (b1 b2 : Option Int) :
    (rt.m_callRefRoutine = none → rt.CallRef refIdx args = (FX_S_OK, none, noEnter)) ∧
    (rt.m_duplicateRefRoutine = none → rt.DuplicateRef refIdx = (FX_S_OK, -1, noEnter)) ∧
    (rt.m_tickRoutine = none → rt.Tick = (FX_S_OK, noEnter)) ∧
    (rt.m_eventRoutine = none →
      rt.TriggerEvent eventName args eventSource = (FX_S_OK, noEnter)) ∧
    (rt.m_deleteRefRoutine = none → rt.RemoveRef refIdx = (FX_S_OK, noEnter)) ∧
    (rt.m_stackTraceRoutine = none →
      V8ScriptRuntime.WalkStack decoder rt b1 b2 = (FX_S_OK, [], noEnter)) ∧
    (∀ jsFn : Int → JSOutcome, jsFn refIdx = JSOutcome.exception →
      ∀ rtSet : V8ScriptRuntime,
        rtSet.m_duplicateRefRoutine = some (mkDuplicateRefRoutine jsFn) →
        rt.m_duplicateRefRoutine = none →
        ((rtSet.DuplicateRef refIdx).1, (rtSet.DuplicateRef refIdx).2.1)
          = ((rt.DuplicateRef refIdx).1, (rt.DuplicateRef refIdx).2.1)) := by
  refine ⟨?_, ?_, ?_, ?_, ?_, ?_, ?_⟩
  · intro h
    simp [V8ScriptRuntime.CallRef, h]
  · intro h
    simp [V8ScriptRuntime.DuplicateRef, h]
  · intro h
    simp [V8ScriptRuntime.Tick, h]
  · intro h
    simp [V8ScriptRuntime.TriggerEvent, h]
  · intro h
    simp [V8ScriptRuntime.RemoveRef, h]
  · intro h
    simp [V8ScriptRuntime.WalkStack, h]
  · intro jsFn hexc rtSet hset hnone
    simp [V8ScriptRuntime.DuplicateRef, hset, hnone, mkDuplicateRefRoutine, hexc]

/-- C10 witness: a fresh runtime's `CallRef` yields the defaults, and a
throwing duplicate-ref routine is indistinguishable from an unset one. -/
theorem claim_C10_witness :
    emptyRuntime.CallRef 1 [] = (FX_S_OK, none, noEnter) ∧
    (((emptyRuntime.SetDuplicateRefRoutine
          (mkDuplicateRefRoutine (fun _ => JSOutcome.exception))).DuplicateRef 2).1,
      ((emptyRuntime.SetDuplicateRefRoutine
          (mkDuplicateRefRoutine (fun _ => JSOutcome.exception))).DuplicateRef 2).2.1)
      = ((emptyRuntime.DuplicateRef 2).1, (emptyRuntime.DuplicateRef 2).2.1) :=
  ⟨(claim_C10_unset_routine_defaults emptyRuntime 1 [] (fun _ => []) "" "" none none).1 rfl,
   (claim_C10_unset_routine_defaults emptyRuntime 2 [] (fun _ => []) "" "" none none).2.2.2.2.2.2
     (fun _ => JSOutcome.exception) rfl _ rfl rfl⟩

end FxV8
